import Mathlib

/-!
# Camping-site availability refresher: shallow embedding

A shallow embedding of `double_site.py` (the latest variant of the
repository, which the other files `v1.py`, `v2.py`, `test.py` are
superseded historical versions of).  Dates appearing in query windows are
modelled as natural numbers (only their linear order matters to the code:
`<`, `max`); dates appearing inside remote `DateRange` payload entries are
the strings the remote system returns, compared by string membership
against the excluded set, exactly as the Python code does.  Network and
SMTP effects are modelled by explicit oracles: an `HttpOutcome` per query
and booleans for the notification channel, so that the pure control flow
of the script is captured faithfully.
-/

namespace CampingSite

/-- A `{start, end}` window from the remote payload (`dr.get("start")`,
`dr.get("end")` in `double_site.py`).  The ending date is named `stop`
because `end` is a keyword. -/
structure DateRange where
  start : String
  stop : String
deriving Repr, DecidableEq

/-- One entry of the decoded remote payload's `availabilityCards` list:
`card.get("resourceId")` and `card.get("dateRanges", [])`. -/
structure Card where
  resourceId : Int
  dateRanges : List DateRange
deriving Repr, DecidableEq

/-- The decoded remote payload: `json_response.get("availabilityCards", [])`. -/
structure Payload where
  availabilityCards : List Card
deriving Repr, DecidableEq

/-- The uniform result shape produced by `parse_camping_response` and
consumed by the filter and the notifier:
`{"locationName": ..., "resourceId": ..., "dateRanges": ...}`. -/
structure AvailabilityResult where
  locationName : String
  resourceId : Int
  dateRanges : List DateRange
deriving Repr, DecidableEq

/-- `parse_camping_response(json_response, location_name)` from
`double_site.py` lines 131-142: every card with a non-empty
`dateRanges` list becomes one result tagged with the query's location
name; cards with an empty list are skipped (`if date_ranges:`). -/
def parse_camping_response (json_response : Payload) (location_name : String) :
    List AvailabilityResult :=
  json_response.availabilityCards.filterMap fun card =>
    if card.dateRanges.isEmpty then none
    else some { locationName := location_name
                resourceId := card.resourceId
                dateRanges := card.dateRanges }

/-- The test applied to each `DateRange` by the filtering pass in `main`
(line 284): `if start not in EXCLUDED_DATES and end not in EXCLUDED_DATES`. -/
def keepRange (excluded : List String) (dr : DateRange) : Bool :=
  !(excluded.contains dr.start) && !(excluded.contains dr.stop)

/-- The inner loop of the filtering pass (`main`, lines 278-285): the
retained `dateRanges` of one result. -/
def filterDateRanges (excluded : List String) (drs : List DateRange) :
    List DateRange :=
  drs.filter (keepRange excluded)

/-- One result through the filtering pass (`main`, lines 277-292):
`none` when the retained date ranges are empty (the
`if filtered_date_ranges:` guard fails and the result is dropped),
otherwise the rebuilt result dict. -/
def filterResource? (excluded : List String) (r : AvailabilityResult) :
    Option AvailabilityResult :=
  let fdr := filterDateRanges excluded r.dateRanges
  if fdr.isEmpty then none
  else some { locationName := r.locationName
              resourceId := r.resourceId
              dateRanges := fdr }

/-- The whole filtering pass of `main` (lines 276-292) over the aggregated
result list, producing `filtered_resources`. -/
def filterResources (excluded : List String) (rs : List AvailabilityResult) :
    List AvailabilityResult :=
  rs.filterMap (filterResource? excluded)

/-- The observable outcome of the HTTP POST in `make_camping_request`
(lines 193-210): either the request raised (`requests.post`, or
`response.json()` / `parse_camping_response` inside the same `try`), or a
response arrived with a status code and a body that decodes to a payload
(`some`) or is malformed (`none`, in which case `.json()` raises and the
surrounding `except` catches it). -/
inductive HttpOutcome where
  | exn
  | response (status : Nat) (body : Option Payload)
deriving Repr, DecidableEq

/-- An outcome that is a transport failure, a non-200 status, or a
malformed body. -/
def HttpOutcome.isFailure : HttpOutcome → Bool
  | .exn => true
  | .response status body => status != 200 || body.isNone

/-- `make_camping_request` (lines 145-210) as a function of the network
outcome: on a 200 response with a decodable body it returns
`parse_camping_response(response.json(), location_name)`; on any other
status it logs and returns `[]`; any exception (transport failure or
malformed body) is caught by the `except` clause and returns `[]`. -/
def make_camping_request (outcome : HttpOutcome) (location_name : String) :
    List AvailabilityResult :=
  match outcome with
  | .exn => []
  | .response status body =>
    if status = 200 then
      match body with
      | some payload => parse_camping_response payload location_name
      | none => []
    else []

/-- One issued availability query: the arguments `main` passes to
`make_camping_request(location_id, location_name, effective_start, end)`.
Query-window dates are modelled as naturals (only their order is used). -/
structure Query where
  locationId : Int
  locationName : String
  startDate : Nat
  endDate : Nat
deriving Repr, DecidableEq

/-- The per-range date arithmetic of `main` (lines 254-264), with `today`
standing for `date.today() + timedelta(days=2)` (today plus the lookahead
offset): a range whose end precedes `today` is skipped (`continue`),
otherwise the effective start is `max(start_dt, today)`. -/
def processRange (today startDate endDate : Nat) : Option (Nat × Nat) :=
  if endDate < today then none
  else some (max startDate today, endDate)

/-- The queries `main` issues for one configured date range: none when the
range is skipped, otherwise one query per configured location, in
configuration order (`RESOURCE_LOCATIONS.items()` gives
(name, id) pairs). -/
def rangeQueries (today : Nat) (r : Nat × Nat)
    (locations : List (String × Int)) : List Query :=
  match processRange today r.1 r.2 with
  | none => []
  | some (es, e) => locations.map fun l => ⟨l.2, l.1, es, e⟩

/-- All queries of a run in the order they are issued: date-range-major
(outer loop over `DATE_RANGES`), location-minor (inner loop over
`RESOURCE_LOCATIONS`). -/
def issuedQueries (today : Nat) (ranges : List (Nat × Nat))
    (locations : List (String × Int)) : List Query :=
  ranges.flatMap fun r => rangeQueries today r locations

/-- One iteration of the outer loop of `main` (lines 256-273): skip the
range or run the inner location loop, extending the accumulator
`all_available_resources` with each query's results. -/
def fetchStep (today : Nat) (locations : List (String × Int))
    (net : Query → HttpOutcome) (acc : List AvailabilityResult)
    (r : Nat × Nat) : List AvailabilityResult :=
  match processRange today r.1 r.2 with
  | none => acc
  | some (es, e) =>
      locations.foldl
        (fun acc2 l =>
          acc2 ++ make_camping_request (net ⟨l.2, l.1, es, e⟩) l.1)
        acc

/-- The fetch-and-aggregate phase of `main` (lines 253-273): the nested
loops accumulating `all_available_resources.extend(found)`, with the
network modelled by an oracle `net` giving each query's `HttpOutcome`. -/
def mainFetchPhase (today : Nat) (ranges : List (Nat × Nat))
    (locations : List (String × Int)) (net : Query → HttpOutcome) :
    List AvailabilityResult :=
  ranges.foldl (fetchStep today locations net) []

/-- How a call to `send_email_notification` (lines 40-128) ends:
empty input (line 51), missing `GMAIL_APP_PASSWORD` (line 58), successful
SMTP delivery (line 124), or an SMTP exception caught at line 126. -/
inductive EmailOutcome where
  | noResources
  | noPassword
  | sent
  | sendFailed
deriving Repr, DecidableEq

/-- `send_email_notification(available_resources, recipient_email)` as a
function of its input and of the environment/channel oracles
(`passwordSet`: `GMAIL_APP_PASSWORD` present; `smtpOk`: the SMTP session
completes without raising).  Returns the boolean result together with the
branch taken; exceptions inside the `try` are caught and become
`(false, .sendFailed)`, so the function never raises. -/
def send_email_notification (available_resources : List AvailabilityResult)
    (passwordSet smtpOk : Bool) : Bool × EmailOutcome :=
  if available_resources.isEmpty then (false, .noResources)
  else if !passwordSet then (false, .noPassword)
  else if smtpOk then (true, .sent)
  else (false, .sendFailed)

/-- What a run reports at its end: the `print` on line 298 ("No
availability found after filtering...") or the outcome of the one
`send_email_notification` call on line 296. -/
inductive RunReport where
  | noAvailability
  | email (o : EmailOutcome)
deriving Repr, DecidableEq

/-- The observable outcome of a run: the sequence of notification-channel
invocations (each with its argument list), the boolean result of the
notification attempt (`false` when none was made), and the report. -/
structure RunOutcome where
  notificationCalls : List (List AvailabilityResult)
  notified : Bool
  report : RunReport
deriving Repr, DecidableEq

/-- The notification step of `main` (lines 294-298): if the filtered list
is non-empty, `send_email_notification` is called once with the full
filtered list; otherwise nothing is sent and the no-availability message
is printed. -/
def notifyPhase (filtered : List AvailabilityResult)
    (passwordSet smtpOk : Bool) : RunOutcome :=
  if filtered.isEmpty then ⟨[], false, .noAvailability⟩
  else
    let r := send_email_notification filtered passwordSet smtpOk
    ⟨[filtered], r.1, .email r.2⟩

/-- The filtered result list a run produces before notifying:
`filtered_resources` in `main`. -/
def runFiltered (today : Nat) (ranges : List (Nat × Nat))
    (locations : List (String × Int)) (net : Query → HttpOutcome)
    (excluded : List String) : List AvailabilityResult :=
  filterResources excluded (mainFetchPhase today ranges locations net)

/-- A whole run of `main` (lines 252-298): fetch and aggregate, filter,
then notify. -/
def runMain (today : Nat) (ranges : List (Nat × Nat))
    (locations : List (String × Int)) (net : Query → HttpOutcome)
    (excluded : List String) (passwordSet smtpOk : Bool) : RunOutcome :=
  notifyPhase (runFiltered today ranges locations net excluded)
    passwordSet smtpOk

/-- Concrete fixture: a payload with one card holding one open range. -/
def onePayload : Payload :=
  ⟨[⟨5, [⟨"2025-08-10", "2025-08-12"⟩]⟩]⟩

/-- Concrete fixture: a network oracle where every query succeeds and
returns `onePayload`. -/
def goodNet : Query → HttpOutcome :=
  fun _ => .response 200 (some onePayload)

/-- Concrete fixture: a network oracle where the "Golden Ears" query
fails with a transport exception and every other query succeeds with
`onePayload`. -/
def mixedNet : Query → HttpOutcome :=
  fun p => if p.locationId = -2147483606 then .exn
    else .response 200 (some onePayload)

/-- A heterogeneous sublist relation: `RelSublist R l₁ l₂` holds when
`l₁` is obtained from `l₂` by deleting some elements and replacing each
kept element `b` by some `a` with `R a b`, preserving order. -/
inductive RelSublist (R : AvailabilityResult → AvailabilityResult → Prop) :
    List AvailabilityResult → List AvailabilityResult → Prop
  | nil : RelSublist R [] []
  | skip {l₁ l₂ : List AvailabilityResult} (b : AvailabilityResult) :
      RelSublist R l₁ l₂ → RelSublist R l₁ (b :: l₂)
  | keep {l₁ l₂ : List AvailabilityResult} {a b : AvailabilityResult} :
      R a b → RelSublist R l₁ l₂ → RelSublist R (a :: l₁) (b :: l₂)

/-- `r'` is the filtered refinement of `r`: same location name and
resource id, and its date ranges are a sublist (order-preserving
subsequence) of the original ones. -/
def resultRefines (r' r : AvailabilityResult) : Prop :=
  r'.locationName = r.locationName ∧ r'.resourceId = r.resourceId ∧
    r'.dateRanges.Sublist r.dateRanges

end CampingSite

namespace CampingSite

theorem keepRange_eq_true (excluded : List String) (d : DateRange) :
    keepRange excluded d = true ↔ d.start ∉ excluded ∧ d.stop ∉ excluded := by
  simp [keepRange]

/-- Claim C1: For every excluded-dates set and every `dateRanges` list, the
filtering pass retains a `DateRange` entry if and only if neither its
start nor its end is a member of the excluded set: an entry of the
original list survives into `filterDateRanges` exactly when both
boundaries are outside `excluded`, so it is dropped whenever either
boundary is excluded, even if the other is not. -/
theorem claim_c1_filter_retains_iff (excluded : List String)
    (drs : List DateRange) (d : DateRange) (hd : d ∈ drs) :
    d ∈ filterDateRanges excluded drs ↔
      d.start ∉ excluded ∧ d.stop ∉ excluded := by
  rw [filterDateRanges, List.mem_filter, keepRange_eq_true]
  exact and_iff_right hd

/-- Witness for C1 at a concrete input: the range whose start is excluded
is dropped, the untouched range is kept. -/
theorem claim_c1_filter_retains_iff_witness :
    (⟨"2025-08-10", "2025-08-12"⟩ : DateRange) ∈
        [(⟨"2025-08-10", "2025-08-12"⟩ : DateRange)] ∧
      ((⟨"2025-08-10", "2025-08-12"⟩ : DateRange) ∈
          filterDateRanges ["2025-08-10"] [⟨"2025-08-10", "2025-08-12"⟩] ↔
        "2025-08-10" ∉ ["2025-08-10"] ∧ "2025-08-12" ∉ ["2025-08-10"]) :=
  ⟨by decide,
    claim_c1_filter_retains_iff ["2025-08-10"]
      [⟨"2025-08-10", "2025-08-12"⟩] ⟨"2025-08-10", "2025-08-12"⟩ (by decide)⟩

/-- Claim C2: Every `AvailabilityResult` in the filtered output of the
filtering pass has a non-empty `dateRanges` sequence: a result whose
retained ranges become empty is removed entirely (the
`if filtered_date_ranges:` guard), and no result with zero ranges is
emitted. -/
theorem claim_c2_filtered_nonempty (excluded : List String)
    (rs : List AvailabilityResult) (r : AvailabilityResult)
    (hr : r ∈ filterResources excluded rs) : r.dateRanges ≠ [] := by
  rw [filterResources, List.mem_filterMap] at hr
  obtain ⟨r₀, _, h⟩ := hr
  rw [filterResource?] at h
  by_cases he : (filterDateRanges excluded r₀.dateRanges).isEmpty
  · simp [he] at h
  · simp only [he, if_neg, Bool.false_eq_true, not_false_iff, if_false,
      Option.some.injEq] at h
    subst h
    simpa using he

/-- Witness for C2 at a concrete input. -/
theorem claim_c2_filtered_nonempty_witness :
    (⟨"Alice Lake", 7, [⟨"2025-08-10", "2025-08-12"⟩]⟩ : AvailabilityResult) ∈
        filterResources []
          [⟨"Alice Lake", 7, [⟨"2025-08-10", "2025-08-12"⟩]⟩] ∧
      (⟨"Alice Lake", 7,
          [⟨"2025-08-10", "2025-08-12"⟩]⟩ : AvailabilityResult).dateRanges ≠ [] :=
  ⟨by decide,
    claim_c2_filtered_nonempty []
      [⟨"Alice Lake", 7, [⟨"2025-08-10", "2025-08-12"⟩]⟩]
      ⟨"Alice Lake", 7, [⟨"2025-08-10", "2025-08-12"⟩]⟩ (by decide)⟩

lemma filterMap_card_eq (cards : List Card) (name : String) :
    (cards.filterMap fun card =>
        if card.dateRanges.isEmpty then none
        else some (⟨name, card.resourceId, card.dateRanges⟩ : AvailabilityResult)) =
      (cards.filter fun c => !c.dateRanges.isEmpty).map
        (fun c => ⟨name, c.resourceId, c.dateRanges⟩) := by
  induction cards with
  | nil => rfl
  | cons c cs ih =>
    simp only [List.isEmpty_iff] at ih ⊢
    by_cases h : c.dateRanges = [] <;>
      simp [List.filterMap_cons, List.filter_cons, h, ih]

/-- Claim C3: For every decoded remote payload and location name, the
Fetcher's projection `parse_camping_response` surfaces exactly the
payload entries whose `dateRanges` list is non-empty (in order), each
tagged with the query's location name; consequently every produced
`AvailabilityResult` has a non-empty `dateRanges` sequence and entries
with an empty list are never represented in the output. -/
theorem claim_c3_parse_projection (p : Payload) (name : String) :
    parse_camping_response p name =
      (p.availabilityCards.filter fun c => !c.dateRanges.isEmpty).map
        (fun c => ⟨name, c.resourceId, c.dateRanges⟩) ∧
    ∀ r ∈ parse_camping_response p name,
      r.locationName = name ∧ r.dateRanges ≠ [] := by
  have heq := filterMap_card_eq p.availabilityCards name
  refine ⟨heq, ?_⟩
  intro r hr
  rw [parse_camping_response] at hr
  rw [heq, List.mem_map] at hr
  obtain ⟨c, hc, hcr⟩ := hr
  rw [List.mem_filter] at hc
  subst hcr
  refine ⟨rfl, ?_⟩
  simpa [List.isEmpty_iff] using hc.2

/-- Witness for C3 at a concrete payload: one card with a range, one
empty card; only the former is surfaced. -/
theorem claim_c3_parse_projection_witness :
    parse_camping_response
        ⟨[⟨5, [⟨"2025-08-10", "2025-08-12"⟩]⟩, ⟨6, []⟩]⟩ "Alice Lake" =
      (([⟨5, [⟨"2025-08-10", "2025-08-12"⟩]⟩, ⟨6, []⟩] : List Card).filter
          fun c => !c.dateRanges.isEmpty).map
        (fun c => ⟨"Alice Lake", c.resourceId, c.dateRanges⟩) ∧
    ∀ r ∈ parse_camping_response
        ⟨[⟨5, [⟨"2025-08-10", "2025-08-12"⟩]⟩, ⟨6, []⟩]⟩ "Alice Lake",
      r.locationName = "Alice Lake" ∧ r.dateRanges ≠ [] :=
  claim_c3_parse_projection ⟨[⟨5, [⟨"2025-08-10", "2025-08-12"⟩]⟩, ⟨6, []⟩]⟩
    "Alice Lake"

lemma filterDateRanges_idem (excluded : List String) (drs : List DateRange) :
    filterDateRanges excluded (filterDateRanges excluded drs) =
      filterDateRanges excluded drs := by
  simp [filterDateRanges, List.filter_filter]

lemma filterResource?_idem (excluded : List String)
    (r r' : AvailabilityResult) (h : filterResource? excluded r = some r') :
    filterResource? excluded r' = some r' := by
  rw [filterResource?] at h
  by_cases he : (filterDateRanges excluded r.dateRanges).isEmpty
  · simp [he] at h
  · simp only [he, Bool.false_eq_true, if_false, Option.some.injEq] at h
    subst h
    rw [filterResource?]
    simp [filterDateRanges_idem, he]

/-- Claim C8: The filter-and-drop pass of `main` is idempotent: applying
it twice with the same excluded set yields the same result as applying
it once. -/
theorem claim_c8_filter_idempotent (excluded : List String)
    (rs : List AvailabilityResult) :
    filterResources excluded (filterResources excluded rs) =
      filterResources excluded rs := by
  induction rs with
  | nil => rfl
  | cons r rs ih =>
    cases h : filterResource? excluded r with
    | none => simpa [filterResources, List.filterMap_cons, h] using ih
    | some r' =>
      simpa [filterResources, List.filterMap_cons, h,
        filterResource?_idem excluded r r' h] using ih

/-- Claim C10: The filtering pass never invents or reorders data: the
filtered output is an order-preserving subsequence of the input where
each retained result keeps its `locationName` and `resourceId` and its
`dateRanges` is a sublist of the original result's `dateRanges`. -/
theorem claim_c10_filter_frame (excluded : List String)
    (rs : List AvailabilityResult) :
    RelSublist resultRefines (filterResources excluded rs) rs := by
  induction rs with
  | nil => exact .nil
  | cons r rs ih =>
    rw [filterResources, List.filterMap_cons]
    cases h : filterResource? excluded r with
    | none => exact .skip r ih
    | some r' =>
      refine .keep ?_ ih
      rw [filterResource?] at h
      by_cases he : (filterDateRanges excluded r.dateRanges).isEmpty
      · simp [he] at h
      · simp only [he, Bool.false_eq_true, if_false, Option.some.injEq] at h
        subst h
        exact ⟨rfl, rfl, List.filter_sublist _⟩

lemma foldl_step_acc {α : Type}
    (step : List AvailabilityResult → α → List AvailabilityResult)
    (hstep : ∀ acc x, step acc x = acc ++ step [] x) :
    ∀ (l : List α) (acc), l.foldl step acc = acc ++ l.foldl step [] := by
  intro l
  induction l with
  | nil => simp
  | cons x xs ih =>
    intro acc
    rw [List.foldl_cons, ih, hstep, List.foldl_cons, ih (step [] x),
      List.append_assoc]

lemma locFold_eq (net : Query → HttpOutcome) (es e : Nat)
    (locations : List (String × Int)) (acc : List AvailabilityResult) :
    locations.foldl
        (fun acc2 l => acc2 ++ make_camping_request (net ⟨l.2, l.1, es, e⟩) l.1)
        acc =
      acc ++ locations.flatMap
        (fun l => make_camping_request (net ⟨l.2, l.1, es, e⟩) l.1) := by
  induction locations generalizing acc with
  | nil => simp
  | cons l ls ih => simp [List.foldl_cons, List.flatMap_cons, ih]

lemma fetchStep_acc (today : Nat) (locations : List (String × Int))
    (net : Query → HttpOutcome) (acc : List AvailabilityResult)
    (r : Nat × Nat) :
    fetchStep today locations net acc r =
      acc ++ (rangeQueries today r locations).flatMap
        (fun q => make_camping_request (net q) q.locationName) := by
  rw [fetchStep, rangeQueries]
  cases hp : processRange today r.1 r.2 with
  | none => simp
  | some p =>
    obtain ⟨es, e⟩ := p
    dsimp only
    rw [locFold_eq]
    congr 1
    induction locations with
    | nil => rfl
    | cons l ls ihl => simp [List.flatMap_cons, ihl]

lemma mainFetchPhase_eq_flatMap (today : Nat) (ranges : List (Nat × Nat))
    (locations : List (String × Int)) (net : Query → HttpOutcome) :
    mainFetchPhase today ranges locations net =
      (issuedQueries today ranges locations).flatMap
        (fun q => make_camping_request (net q) q.locationName) := by
  induction ranges with
  | nil => rfl
  | cons r rs ih =>
    rw [mainFetchPhase, List.foldl_cons,
      foldl_step_acc _ (fun acc x => by
        rw [fetchStep_acc, fetchStep_acc, List.nil_append]),
      ← mainFetchPhase, ih, fetchStep_acc]
    simp [issuedQueries, List.flatMap_cons, List.flatMap_append]

/-- Claim C9: The aggregated pre-filter sequence of a run is the
concatenation of the Fetcher outputs in the exact order the queries are
issued: date-range-major, location-minor, matching configuration
iteration order (`issuedQueries`). -/
theorem claim_c9_aggregation_order (today : Nat) (ranges : List (Nat × Nat))
    (locations : List (String × Int)) (net : Query → HttpOutcome) :
    mainFetchPhase today ranges locations net =
      (issuedQueries today ranges locations).flatMap
        (fun q => make_camping_request (net q) q.locationName) :=
  mainFetchPhase_eq_flatMap today ranges locations net

/-- Claim C5: Under the precondition `startDate ≤ endDate`, if the
effective start date — the later of the configured start and `today`
(which already includes the two-day lookahead offset) — exceeds the
configured end date, `main` skips the range entirely: no query is issued
for it and it contributes nothing to a run's aggregated results. -/
theorem claim_c5_skip_range (today s e : Nat)
    (locations : List (String × Int))
    (hpre : s ≤ e) (hskip : e < max s today) :
    rangeQueries today (s, e) locations = [] ∧
    ∀ (ranges : List (Nat × Nat)) (net : Query → HttpOutcome),
      mainFetchPhase today ((s, e) :: ranges) locations net =
        mainFetchPhase today ranges locations net := by
  have htoday : e < today := by
    rcases lt_max_iff.mp hskip with h | h
    · omega
    · exact h
  have hp : processRange today s e = none := by
    rw [processRange, if_pos htoday]
  constructor
  · rw [rangeQueries]
    simp [hp]
  · intro ranges net
    rw [mainFetchPhase, List.foldl_cons, fetchStep]
    simp only [hp]
    rfl

/-- Witness for C5 at a concrete input: range (3, 5) with today = 10
issues no query and contributes nothing. -/
theorem claim_c5_skip_range_witness :
    3 ≤ 5 ∧ 5 < max 3 10 ∧
    rangeQueries 10 (3, 5) [("Alice Lake", -2147483647)] = [] ∧
    mainFetchPhase 10 [(3, 5)] [("Alice Lake", -2147483647)] goodNet =
      mainFetchPhase 10 [] [("Alice Lake", -2147483647)] goodNet :=
  ⟨by decide, by decide,
    (claim_c5_skip_range 10 3 5 [("Alice Lake", -2147483647)]
      (by decide) (by decide)).1,
    (claim_c5_skip_range 10 3 5 [("Alice Lake", -2147483647)]
      (by decide) (by decide)).2 [] goodNet⟩

lemma make_camping_request_failure (o : HttpOutcome) (name : String)
    (h : o.isFailure = true) : make_camping_request o name = [] := by
  cases o with
  | exn => rfl
  | response status body =>
    rw [HttpOutcome.isFailure] at h
    simp only [make_camping_request]
    by_cases hs : status = 200
    · subst hs
      cases body with
      | none => simp
      | some p => simp at h
    · simp [hs]

/-- Claim C6: Any transport failure, non-200 status, or malformed response
body makes `make_camping_request` yield an empty result sequence for
that query (the exception is caught inside it, never raised past the
caller), and the run continues through the remaining queries
unconditionally: when a failing query `q` sits anywhere in the issued
sequence, the aggregated output is exactly the concatenation of the
outputs of the queries before and after it, unchanged. -/
theorem claim_c6_failure_isolation (net : Query → HttpOutcome) (q : Query)
    (hfail : (net q).isFailure = true) (today : Nat)
    (ranges : List (Nat × Nat)) (locations : List (String × Int))
    (qs₁ qs₂ : List Query)
    (hsplit : issuedQueries today ranges locations = qs₁ ++ q :: qs₂) :
    make_camping_request (net q) q.locationName = [] ∧
    mainFetchPhase today ranges locations net =
      qs₁.flatMap (fun p => make_camping_request (net p) p.locationName) ++
        qs₂.flatMap (fun p => make_camping_request (net p) p.locationName) := by
  have hempty := make_camping_request_failure (net q) q.locationName hfail
  refine ⟨hempty, ?_⟩
  rw [mainFetchPhase_eq_flatMap, hsplit, List.flatMap_append,
    List.flatMap_cons, hempty, List.nil_append]

/-- Witness for C6 (Scenario D): of two locations in one range, the
first query fails with a transport exception; the aggregate equals the
second query's output alone. -/
theorem claim_c6_failure_isolation_witness :
    (mixedNet ⟨-2147483606, "Golden Ears", 1, 2⟩).isFailure = true ∧
    issuedQueries 0 [(1, 2)]
        [("Golden Ears", -2147483606), ("Alice Lake", -2147483647)] =
      [] ++ (⟨-2147483606, "Golden Ears", 1, 2⟩ : Query) ::
        [⟨-2147483647, "Alice Lake", 1, 2⟩] ∧
    make_camping_request (mixedNet ⟨-2147483606, "Golden Ears", 1, 2⟩)
        "Golden Ears" = [] ∧
    mainFetchPhase 0 [(1, 2)]
        [("Golden Ears", -2147483606), ("Alice Lake", -2147483647)]
        mixedNet =
      ([] : List Query).flatMap
          (fun p => make_camping_request (mixedNet p) p.locationName) ++
        ([⟨-2147483647, "Alice Lake", 1, 2⟩] : List Query).flatMap
          (fun p => make_camping_request (mixedNet p) p.locationName) :=
  ⟨by decide, by decide,
    (claim_c6_failure_isolation mixedNet ⟨-2147483606, "Golden Ears", 1, 2⟩
      (by decide) 0 [(1, 2)]
      [("Golden Ears", -2147483606), ("Alice Lake", -2147483647)]
      [] [⟨-2147483647, "Alice Lake", 1, 2⟩] (by decide)).1,
    (claim_c6_failure_isolation mixedNet ⟨-2147483606, "Golden Ears", 1, 2⟩
      (by decide) 0 [(1, 2)]
      [("Golden Ears", -2147483606), ("Alice Lake", -2147483647)]
      [] [⟨-2147483647, "Alice Lake", 1, 2⟩] (by decide)).2⟩

/-- Claim C4: With the notification environment nominal (password present,
SMTP delivery succeeding): if a run's filtered sequence is non-empty,
the notification channel is invoked exactly once, with the full filtered
sequence, and the run's notified outcome (the boolean
`send_email_notification` returns, which `main` reports through its
logs) is true; if the filtered sequence is empty, no notification call
is made and the notified outcome is false. -/
theorem claim_c4_notify_exactly_once (today : Nat)
    (ranges : List (Nat × Nat)) (locations : List (String × Int))
    (net : Query → HttpOutcome) (excluded : List String) :
    (runFiltered today ranges locations net excluded ≠ [] →
      (runMain today ranges locations net excluded true true).notificationCalls =
          [runFiltered today ranges locations net excluded] ∧
        (runMain today ranges locations net excluded true true).notified =
          true) ∧
    (runFiltered today ranges locations net excluded = [] →
      (runMain today ranges locations net excluded true true).notificationCalls =
          [] ∧
        (runMain today ranges locations net excluded true true).notified =
          false) := by
  constructor
  · intro h
    have hne : (runFiltered today ranges locations net excluded).isEmpty =
        false := by simpa [List.isEmpty_iff] using h
    rw [runMain, notifyPhase]
    simp [hne, send_email_notification]
  · intro h
    rw [runMain, notifyPhase]
    simp [h]

/-- Witness for C4 (Scenario A): one successful query with one open
range and an empty excluded set yields one notification call carrying
that single result, with a true notified outcome. -/
theorem claim_c4_notify_exactly_once_witness :
    runFiltered 0 [(1, 2)] [("Alice Lake", -2147483647)] goodNet [] ≠ [] ∧
    ((runMain 0 [(1, 2)] [("Alice Lake", -2147483647)] goodNet []
          true true).notificationCalls =
        [runFiltered 0 [(1, 2)] [("Alice Lake", -2147483647)] goodNet []] ∧
      (runMain 0 [(1, 2)] [("Alice Lake", -2147483647)] goodNet []
          true true).notified = true) :=
  ⟨by decide,
    (claim_c4_notify_exactly_once 0 [(1, 2)] [("Alice Lake", -2147483647)]
      goodNet []).1 (by decide)⟩

/-- Claim C7: When the filtered sequence is non-empty and the notification
channel fails (the SMTP session raises, caught inside
`send_email_notification`, or the password is absent), the run still
completes — `runMain` is a total function whose failure branch returns
normally — with a false notified outcome and a report distinct from the
"nothing to notify" report, while the one channel invocation that was
attempted is recorded. -/
theorem claim_c7_notification_failure_contained (today : Nat)
    (ranges : List (Nat × Nat)) (locations : List (String × Int))
    (net : Query → HttpOutcome) (excluded : List String)
    (passwordSet : Bool)
    (hne : runFiltered today ranges locations net excluded ≠ []) :
    (runMain today ranges locations net excluded passwordSet false).notified =
        false ∧
      (runMain today ranges locations net excluded passwordSet false).report ≠
        RunReport.noAvailability ∧
      (runMain today ranges locations net excluded passwordSet
          false).notificationCalls =
        [runFiltered today ranges locations net excluded] := by
  have h : (runFiltered today ranges locations net excluded).isEmpty =
      false := by simpa [List.isEmpty_iff] using hne
  rw [runMain, notifyPhase]
  cases passwordSet <;> simp [h, send_email_notification]

/-- Witness for C7 (Scenario E): a non-empty filtered sequence with a
failing SMTP channel gives a false notified outcome and a
notification-failure report, not the no-availability report. -/
theorem claim_c7_notification_failure_contained_witness :
    runFiltered 0 [(1, 2)] [("Alice Lake", -2147483647)] goodNet [] ≠ [] ∧
    ((runMain 0 [(1, 2)] [("Alice Lake", -2147483647)] goodNet []
          true false).notified = false ∧
      (runMain 0 [(1, 2)] [("Alice Lake", -2147483647)] goodNet []
          true false).report ≠ RunReport.noAvailability ∧
      (runMain 0 [(1, 2)] [("Alice Lake", -2147483647)] goodNet []
          true false).notificationCalls =
        [runFiltered 0 [(1, 2)] [("Alice Lake", -2147483647)] goodNet []]) :=
  ⟨by decide,
    claim_c7_notification_failure_contained 0 [(1, 2)]
      [("Alice Lake", -2147483647)] goodNet [] true (by decide)⟩

end CampingSite
